import Mathlib

/-!
Shallow embedding of the gpagorm repository (a GORM adapter for the Go
Persistence API).  The definitions below are translated from
`repository.go`; behaviour of the external collaborators (the `gpa`
error/option types and GORM's batching and transaction primitives) that the
source only calls into is modelled from the specification, and each such
definition says so in its doc comment.
-/

namespace Gpagorm

/-- The GPA error taxonomy (`gpa.ErrorType`): the four types used by
`repository.go`. -/
inductive ErrorType where
  | notFound
  | duplicate
  | validation
  | database
deriving Repr, DecidableEq

/-- A Go error value as seen by `convertGormError`.
`gormRecordNotFound` and `gormDuplicatedKey` are the two GORM sentinel
errors; `gpaError` is a `gpa.GPAError` value `{Type, Message, Cause}`;
`backend t c` is any other backend error (text `t`), possibly wrapping a
cause `c` (Go `fmt.Errorf("...%w...")` style). -/
inductive GoError where
  | gormRecordNotFound
  | gormDuplicatedKey
  | gpaError (type : ErrorType) (message : String) (cause : Option GoError)
  | backend (text : String) (cause : Option GoError)
deriving Repr

/-- Modelled from the spec: `gpa.NewError(t, msg)` builds a GPAError with no
cause (spec §3: GPAError is `{Type, Message, Cause: optional}`). -/
def gpaNewError (t : ErrorType) (msg : String) : GoError :=
  .gpaError t msg none

/-- Modelled from the spec: `gpa.NewErrorWithCause(t, msg, cause)` builds a
GPAError preserving the original error as `Cause`. -/
def gpaNewErrorWithCause (t : ErrorType) (msg : String) (cause : GoError) : GoError :=
  .gpaError t msg (some cause)

/-- Modelled from the spec: Go's `errors.Is(err, target)` for the two GORM
sentinel targets.  A sentinel matches itself; a `backend` wrapper unwraps
through its cause chain (`fmt.Errorf("%w")` exposes `Unwrap`).  A
`gpa.GPAError` does not match a sentinel: per spec §4.4 rule 2 an
already-classified error passes through unchanged, so classified errors do
not re-signal "no matching row" or "key conflict" through their cause. -/
def errorsIs : GoError → GoError → Bool
  | .gormRecordNotFound, .gormRecordNotFound => true
  | .gormDuplicatedKey, .gormDuplicatedKey => true
  | .backend _ (some c), target => errorsIs c target
  | _, _ => false

/-- The Go type assertion `err.(gpa.GPAError)`: succeeds exactly on a
`gpaError` value (type assertions do not unwrap). -/
def isGPAError : GoError → Bool
  | .gpaError _ _ _ => true
  | _ => false

/-- `convertGormError` from `repository.go`: nil passes through, the two
GORM sentinels map to NotFound / Duplicate, an existing GPAError is
returned as is, anything else is wrapped as a Database error with the
original as cause. -/
def convertGormError : Option GoError → Option GoError
  | none => none
  | some err =>
    if errorsIs err .gormRecordNotFound then
      some (gpaNewError .notFound "record not found")
    else if errorsIs err .gormDuplicatedKey then
      some (gpaNewError .duplicate "duplicate key")
    else if isGPAError err then
      some err
    else
      some (gpaNewErrorWithCause .database "database error" err)

/-- `convertGormError` applied to a known-non-nil error (the
`result.Error != nil` branches of the source). -/
def convertGormError1 (err : GoError) : GoError :=
  match convertGormError (some err) with
  | some e => e
  | none => err

/-- A condition value (`cond.Value()`): an opaque Go `interface\x7b\x7d`
carried to the bound-parameter list unchanged. -/
inductive GpaValue where
  | vInt (i : Int)
  | vStr (s : String)
  | vSeq (l : List GpaValue)
  | vNull
deriving Repr

/-- The `gpa` operator enumeration (`gpa.OpEqual`, ...).  `opOther`
represents any operator value outside the enumerated constants (the
open-enum `default` case of the source's switch). -/
inductive Operator where
  | opEqual
  | opNotEqual
  | opGreaterThan
  | opGreaterThanOrEqual
  | opLessThan
  | opLessThanOrEqual
  | opLike
  | opNotLike
  | opIn
  | opNotIn
  | opIsNull
  | opIsNotNull
  | opOther (code : String)
deriving Repr, DecidableEq

/-- A `gpa.Condition`: either a `gpa.BasicCondition` with the three
accessors field/operator/value, or any other (complex / unrecognized)
condition variant, which `applyCondition` does not interpret. -/
inductive Condition where
  | basic (field : String) (op : Operator) (value : GpaValue)
  | complex (tag : String)
deriving Repr

/-- An ordering directive (`gpa.Order`): field plus direction string. -/
structure Order where
  field : String
  direction : String
deriving Repr

/-- A join directive (`gpa.Join`). -/
structure Join where
  type : String
  table : String
  aliasName : String
  condition : String
deriving Repr

/-- One WHERE/HAVING clause as handed to GORM: the interpolated template
text plus the list of bound parameter values. -/
structure Clause where
  template : String
  binds : List GpaValue
deriving Repr

/-- The state a `*gorm.DB` accumulates from the compiler's calls
(`Where`, `Select`, `Order`, `Limit`, `Offset`, `Joins`, `Preload`,
`Group`, `Having`, `Distinct`).  Each method appends to / sets the
corresponding field. -/
structure GormDB where
  whereClauses : List Clause := []
  selectFields : List String := []
  orderClauses : List String := []
  limitVal : Option Int := none
  offsetVal : Option Int := none
  joinClauses : List String := []
  preloadNames : List String := []
  groupNames : List String := []
  havingClauses : List Clause := []
  distinctOn : Bool := false
deriving Repr

namespace GormDB

/-- `db.Where(template, binds...)`. -/
def whereC (db : GormDB) (template : String) (binds : List GpaValue) : GormDB :=
  { db with whereClauses := db.whereClauses ++ [⟨template, binds⟩] }

/-- `db.Having(template, binds...)`. -/
def havingC (db : GormDB) (template : String) (binds : List GpaValue) : GormDB :=
  { db with havingClauses := db.havingClauses ++ [⟨template, binds⟩] }

/-- `db.Select(fields)`. -/
def selectC (db : GormDB) (fields : List String) : GormDB :=
  { db with selectFields := fields }

/-- `db.Order(clause)`. -/
def orderC (db : GormDB) (clause : String) : GormDB :=
  { db with orderClauses := db.orderClauses ++ [clause] }

/-- `db.Limit(n)`. -/
def limitC (db : GormDB) (n : Int) : GormDB :=
  { db with limitVal := some n }

/-- `db.Offset(n)`. -/
def offsetC (db : GormDB) (n : Int) : GormDB :=
  { db with offsetVal := some n }

/-- `db.Joins(clause)`. -/
def joinsC (db : GormDB) (clause : String) : GormDB :=
  { db with joinClauses := db.joinClauses ++ [clause] }

/-- `db.Preload(name)`. -/
def preloadC (db : GormDB) (name : String) : GormDB :=
  { db with preloadNames := db.preloadNames ++ [name] }

/-- `db.Group(name)`. -/
def groupC (db : GormDB) (name : String) : GormDB :=
  { db with groupNames := db.groupNames ++ [name] }

/-- `db.Distinct()`. -/
def distinctC (db : GormDB) : GormDB :=
  { db with distinctOn := true }

end GormDB

/-- `applyCondition` from `repository.go`: switches on the condition
variant, then on the operator, emitting one `Where` call per basic
condition; the two null checks bind no value, the `default` operator arm
emits the Equal template, and any non-basic condition leaves the query
unchanged. -/
def applyCondition (db : GormDB) (condition : Condition) : GormDB :=
  match condition with
  | .basic field op value =>
    match op with
    | .opEqual => db.whereC (field ++ " = ?") [value]
    | .opNotEqual => db.whereC (field ++ " != ?") [value]
    | .opGreaterThan => db.whereC (field ++ " > ?") [value]
    | .opGreaterThanOrEqual => db.whereC (field ++ " >= ?") [value]
    | .opLessThan => db.whereC (field ++ " < ?") [value]
    | .opLessThanOrEqual => db.whereC (field ++ " <= ?") [value]
    | .opLike => db.whereC (field ++ " LIKE ?") [value]
    | .opNotLike => db.whereC (field ++ " NOT LIKE ?") [value]
    | .opIn => db.whereC (field ++ " IN ?") [value]
    | .opNotIn => db.whereC (field ++ " NOT IN ?") [value]
    | .opIsNull => db.whereC (field ++ " IS NULL") []
    | .opIsNotNull => db.whereC (field ++ " IS NOT NULL") []
    | .opOther _ => db.whereC (field ++ " = ?") [value]
  | _ => db

/-- `applyHaving` from `repository.go`: like `applyCondition` but targeting
the HAVING clause and enumerating only the six comparison operators, with
every other operator falling into the Equal `default` arm. -/
def applyHaving (db : GormDB) (condition : Condition) : GormDB :=
  match condition with
  | .basic field op value =>
    match op with
    | .opEqual => db.havingC (field ++ " = ?") [value]
    | .opNotEqual => db.havingC (field ++ " != ?") [value]
    | .opGreaterThan => db.havingC (field ++ " > ?") [value]
    | .opGreaterThanOrEqual => db.havingC (field ++ " >= ?") [value]
    | .opLessThan => db.havingC (field ++ " < ?") [value]
    | .opLessThanOrEqual => db.havingC (field ++ " <= ?") [value]
    | _ => db.havingC (field ++ " = ?") [value]
  | _ => db

/-- The `gpa.Query` accumulator populated by the query options. -/
structure Query where
  conditions : List Condition := []
  fields : List String := []
  orders : List Order := []
  limitVal : Option Int := none
  offsetVal : Option Int := none
  joins : List Join := []
  preloads : List String := []
  groups : List String := []
  having : List Condition := []
  distinctOn : Bool := false
deriving Repr

/-- Modelled from the spec: a `gpa.QueryOption` is "apply self to a Query
accumulator ... pure mutation of the accumulator" (spec §3), so an option
is a function on the accumulator. -/
def QueryOption : Type := Query → Query

/-- `buildQuery` from `repository.go`: applies every option to an empty
accumulator in caller order, then replays the accumulator onto the GORM
handle in the source's fixed order (conditions, field selection, ordering,
limit, offset, joins, preloads, groups, having, distinct). -/
def buildQuery (db0 : GormDB) (opts : List QueryOption) : GormDB :=
  let query := opts.foldl (fun q opt => opt q) {}
  let db := query.conditions.foldl (fun db c => applyCondition db c) db0
  let db := if query.fields ≠ [] then db.selectC query.fields else db
  let db := query.orders.foldl
    (fun db o => db.orderC (o.field ++ " " ++ o.direction)) db
  let db := match query.limitVal with
    | some n => db.limitC n
    | none => db
  let db := match query.offsetVal with
    | some n => db.offsetC n
    | none => db
  let db := query.joins.foldl (fun db j =>
    let clause := j.type ++ " JOIN " ++ j.table
    let clause := if j.aliasName ≠ "" then clause ++ " AS " ++ j.aliasName else clause
    let clause := if j.condition ≠ "" then clause ++ " ON " ++ j.condition else clause
    db.joinsC clause) db
  let db := query.preloads.foldl (fun db p => db.preloadC p) db
  let db := query.groups.foldl (fun db g => db.groupC g) db
  let db := query.having.foldl (fun db h => applyHaving db h) db
  if query.distinctOn then db.distinctC else db

/-- The hook responses of one entity value.  `none` means the entity does
not implement the hook (the `ok` of the Go capability check is false);
`some none` means it implements it and returns nil; `some (some e)` means
it implements it and fails with `e`. -/
structure EntityHooks where
  validate : Option (Option GoError) := none
  beforeCreate : Option (Option GoError) := none
  afterCreate : Option (Option GoError) := none
deriving Repr

/-- The Go pattern `if hook, ok := any(e).(H); ok \x7b if err := hook.X(ctx);
err != nil \x7b ... \x7d \x7d`: yields the hook's error exactly when the hook is
implemented and fails. -/
def hookFails : Option (Option GoError) → Option GoError
  | some (some e) => some e
  | _ => none

/-- `Create` from `repository.go`.  `persist` is the store's response to
the single `db.Create` call.  Returns the operation's error and whether
the persistence call was reached. -/
def createOp (entity : EntityHooks) (persist : Option GoError) :
    Option GoError × Bool :=
  match hookFails entity.validate with
  | some e => (some (gpaNewErrorWithCause .validation "validation failed" e), false)
  | none =>
  match hookFails entity.beforeCreate with
  | some e => (some (gpaNewErrorWithCause .validation "before create hook failed" e), false)
  | none =>
  match persist with
  | some err => (some (convertGormError1 err), true)
  | none => (none, true)

/-- The first validation-hook failure over a batch, wrapped the way the
source wraps it (first loop of `CreateBatch`). -/
def validateAll : List EntityHooks → Option GoError
  | [] => none
  | e :: rest =>
    match hookFails e.validate with
    | some err => some (gpaNewErrorWithCause .validation "validation failed" err)
    | none => validateAll rest

/-- The first before-create-hook failure over a batch, wrapped the way the
source wraps it (second loop of `CreateBatch`). -/
def beforeCreateAll : List EntityHooks → Option GoError
  | [] => none
  | e :: rest =>
    match hookFails e.beforeCreate with
    | some err => some (gpaNewErrorWithCause .validation "before create hook failed" err)
    | none => beforeCreateAll rest

/-- `CreateBatch` from `repository.go`: validate all, before-create all,
one `CreateInBatches(entities, 100)` call, after-create all with failures
ignored.  `persist` is the store's overall response to the batched write;
the Bool records whether the batched write was reached. -/
def createBatchOp (entities : List EntityHooks) (persist : Option GoError) :
    Option GoError × Bool :=
  match validateAll entities with
  | some e => (some e, false)
  | none =>
  match beforeCreateAll entities with
  | some e => (some e, false)
  | none =>
  match persist with
  | some err => (some (convertGormError1 err), true)
  | none => (none, true)

/-- Modelled from the spec: GORM's `CreateInBatches(rows, batchSize)`
(called by `CreateBatch` but implemented in the external GORM library)
"persists all in one batched operation (fixed sub-batch size of 100 rows
per physical write)" — it splits the N rows into consecutive sub-batches
of at most `batchSize` rows, one physical write per sub-batch.  This
definition returns those sub-batch sizes in order. -/
def chunkSizes : Nat → Nat → List Nat
  | _, 0 => []
  | 0, _ + 1 => []
  | n + 1, b + 1 => min (n + 1) (b + 1) :: chunkSizes (n - b) (b + 1)
termination_by n _ => n
decreasing_by omega

/-- A GORM call result: error plus `RowsAffected`. -/
structure StoreResult where
  error : Option GoError := none
  rowsAffected : Nat := 0
deriving Repr

/-- `UpdatePartial` from `repository.go`: classifies a store error, and
with no store error reports NotFound exactly when zero rows were
affected.  `res` is the store's response to the `Updates` call. -/
def updatePartialOp (res : StoreResult) : Option GoError :=
  match res.error with
  | some e => some (convertGormError1 e)
  | none =>
    if res.rowsAffected == 0 then
      some (GoError.gpaError .notFound "entity not found" none)
    else none

/-- The inputs `Delete` receives from the store and the entity's hooks:
the fetch (`First`) error, the before/after delete hook responses, and the
`Delete` call's result. -/
structure DeleteEnv where
  fetch : Option GoError := none
  beforeDelete : Option (Option GoError) := none
  deleteResult : StoreResult := {}
  afterDelete : Option (Option GoError) := none

/-- `Delete` from `repository.go`: fetch the entity (classifying the fetch
error), run BeforeDelete (failure surfaces as Validation), issue the
delete (classifying its error), report NotFound on zero rows affected,
and swallow any AfterDelete failure. -/
def deleteOp (env : DeleteEnv) : Option GoError :=
  match env.fetch with
  | some e => some (convertGormError1 e)
  | none =>
  match hookFails env.beforeDelete with
  | some e => some (gpaNewErrorWithCause .validation "before delete hook failed" e)
  | none =>
  match env.deleteResult.error with
  | some e => some (convertGormError1 e)
  | none =>
    if env.deleteResult.rowsAffected == 0 then
      some (GoError.gpaError .notFound "entity not found" none)
    else none

/-- `Count` from `repository.go`: compiles the options, asks the store for
the count, and returns the scanned count together with the classified
store error.  `store` stands for the `Model(...).Count(...)` call on the
compiled query. -/
def countOp (db0 : GormDB) (store : GormDB → Nat × Option GoError)
    (opts : List QueryOption) : Nat × Option GoError :=
  let q := buildQuery db0 opts
  let r := store q
  (r.1, convertGormError r.2)

/-- `Exists` from `repository.go`: calls `Count` with the same options and
returns `count > 0` together with Count's error. -/
def existsOp (db0 : GormDB) (store : GormDB → Nat × Option GoError)
    (opts : List QueryOption) : Bool × Option GoError :=
  let r := countOp db0 store opts
  (decide (0 < r.1), r.2)

/-- Whether the store-native transaction committed or rolled back. -/
inductive TxOutcome where
  | committed
  | rolledBack
deriving Repr, DecidableEq

/-- A repository value: the opaque store handle and provider it is bound
to (`Repository.db`, `Repository.provider`), identified by tags. -/
structure Repo where
  db : Nat
  provider : Nat
deriving Repr, DecidableEq

/-- Modelled from the spec: GORM's `db.Transaction(fn)` (external library)
opens a store-native transaction with handle `txHandle`, runs `fn` on it,
"commits iff the function returns no error; any error ... rolls back and
is surfaced unchanged". -/
def gormTransaction (txHandle : Nat) (fn : Nat → Option GoError) :
    Option GoError × TxOutcome :=
  match fn txHandle with
  | none => (none, .committed)
  | some e => (some e, .rolledBack)

/-- `Transaction` from `repository.go`: delegates to the store
transaction, handing the caller's function a transaction-scoped repository
whose handle is the transactional one and whose provider is the
caller's.  The function's error is returned with no re-wrapping. -/
def transactionOp (r : Repo) (txHandle : Nat) (fn : Repo → Option GoError) :
    Option GoError × TxOutcome :=
  gormTransaction txHandle (fun tx => fn { db := tx, provider := r.provider })

/-- Result of the index-name computation inside `CreateIndex`: either the
generated name, or a Go panic (out-of-range slice index). -/
inductive IndexNameResult where
  | panics
  | ok (name : String)
deriving Repr, DecidableEq

/-- The index-name generation of `CreateIndex` in `repository.go`: it
reads `fields[0]` unconditionally ("idx_" + table + "_" + fields[0]) and
appends "_" + field for each field of `fields[1:]`; on an empty slice the
Go index expression panics rather than returning an error. -/
def createIndexName (table : String) (fields : List String) : IndexNameResult :=
  match fields with
  | [] => .panics
  | f0 :: rest =>
    .ok (rest.foldl (fun acc f => acc ++ "_" ++ f) ("idx_" ++ table ++ "_" ++ f0))

/-- Written from the spec's words (§4.3): the fixed operator-to-predicate
table for WHERE filters, with an unknown operator falling back to the
Equal template. -/
def specWhereTemplate (field : String) : Operator → String
  | .opEqual => field ++ " = ?"
  | .opNotEqual => field ++ " != ?"
  | .opGreaterThan => field ++ " > ?"
  | .opGreaterThanOrEqual => field ++ " >= ?"
  | .opLessThan => field ++ " < ?"
  | .opLessThanOrEqual => field ++ " <= ?"
  | .opLike => field ++ " LIKE ?"
  | .opNotLike => field ++ " NOT LIKE ?"
  | .opIn => field ++ " IN ?"
  | .opNotIn => field ++ " NOT IN ?"
  | .opIsNull => field ++ " IS NULL"
  | .opIsNotNull => field ++ " IS NOT NULL"
  | .opOther _ => field ++ " = ?"

/-- Written from the spec's words: one bound parameter carrying the
condition's value, except zero bound parameters for the two null-check
operators. -/
def specBoundParams (op : Operator) (value : GpaValue) : List GpaValue :=
  match op with
  | .opIsNull => []
  | .opIsNotNull => []
  | _ => [value]

/-- Written from the spec's words: HAVING supports only the comparison
subset, and every operator outside it falls back to the Equal template. -/
def specHavingTemplate (field : String) : Operator → String
  | .opNotEqual => field ++ " != ?"
  | .opGreaterThan => field ++ " > ?"
  | .opGreaterThanOrEqual => field ++ " >= ?"
  | .opLessThan => field ++ " < ?"
  | .opLessThanOrEqual => field ++ " <= ?"
  | _ => field ++ " = ?"

/-- C1: applying a BasicCondition as a WHERE filter emits exactly the
predicate template of the spec's fixed operator table with the
condition's field name and one bound parameter (zero for the null-check
operators, with an unknown operator falling back to Equal), and applying
it as a HAVING condition emits the comparison-subset template with every
other operator falling back to Equal. -/
theorem applyCondition_matches_operator_table
    (db : GormDB) (field : String) (op : Operator) (value : GpaValue) :
    applyCondition db (.basic field op value)
      = db.whereC (specWhereTemplate field op) (specBoundParams op value) ∧
    applyHaving db (.basic field op value)
      = db.havingC (specHavingTemplate field op) [value] := by
  refine ⟨?_, ?_⟩ <;> cases op <;> rfl

/-- Every classifier output is either no error or a GPAError value. -/
theorem convertGormError_shape (e : Option GoError) :
    convertGormError e = none ∨
      ∃ t m c, convertGormError e = some (GoError.gpaError t m c) := by
  cases e with
  | none => exact Or.inl rfl
  | some err =>
    right
    simp only [convertGormError]
    split
    · exact ⟨.notFound, "record not found", none, rfl⟩
    split
    · exact ⟨.duplicate, "duplicate key", none, rfl⟩
    split
    · rename_i h3
      cases err with
      | gpaError t m c => exact ⟨t, m, c, rfl⟩
      | gormRecordNotFound => simp [isGPAError] at h3
      | gormDuplicatedKey => simp [isGPAError] at h3
      | backend s c => simp [isGPAError] at h3
    · exact ⟨.database, "database error", some err, rfl⟩

/-- C2: classification is idempotent — an error that is already a GPAError,
of any type and with any cause, passes through `convertGormError`
unchanged, and re-classifying any classifier output returns it
unchanged. -/
theorem convertGormError_pass_through_idempotent :
    (∀ (t : ErrorType) (msg : String) (cause : Option GoError),
       convertGormError (some (.gpaError t msg cause)) = some (.gpaError t msg cause)) ∧
    (∀ e : Option GoError, convertGormError (convertGormError e) = convertGormError e) := by
  have pass : ∀ (t : ErrorType) (msg : String) (cause : Option GoError),
      convertGormError (some (.gpaError t msg cause)) = some (.gpaError t msg cause) := by
    intro t msg cause
    rfl
  refine ⟨pass, ?_⟩
  intro e
  rcases convertGormError_shape e with h | ⟨t, m, c, h⟩
  · rw [h]; rfl
  · rw [h, pass]

/-- C3: the classifier maps nil to nil, a no-matching-row signal to a
NotFound error, a uniqueness-conflict signal to a Duplicate error, and
any other not-already-classified error to a Database error carrying the
original error as its Cause. -/
theorem convertGormError_classification :
    convertGormError none = none ∧
    (∀ err : GoError, errorsIs err .gormRecordNotFound = true →
       convertGormError (some err) = some (gpaNewError .notFound "record not found")) ∧
    (∀ err : GoError, errorsIs err .gormRecordNotFound = false →
       errorsIs err .gormDuplicatedKey = true →
       convertGormError (some err) = some (gpaNewError .duplicate "duplicate key")) ∧
    (∀ err : GoError, errorsIs err .gormRecordNotFound = false →
       errorsIs err .gormDuplicatedKey = false →
       isGPAError err = false →
       convertGormError (some err)
         = some (.gpaError .database "database error" (some err))) := by
  refine ⟨rfl, ?_, ?_, ?_⟩
  · intro err h1
    simp [convertGormError, h1]
  · intro err h1 h2
    simp [convertGormError, h1, h2]
  · intro err h1 h2 h3
    simp [convertGormError, h1, h2, h3, gpaNewErrorWithCause]

/-- Closed instances of C3's three conditional rules: a wrapped
record-not-found signal, a wrapped duplicated-key signal, and a plain
backend error. -/
theorem convertGormError_classification_witness :
    convertGormError (some (.backend "wrap" (some .gormRecordNotFound)))
      = some (gpaNewError .notFound "record not found") ∧
    convertGormError (some (.backend "wrap" (some .gormDuplicatedKey)))
      = some (gpaNewError .duplicate "duplicate key") ∧
    convertGormError (some (.backend "connection reset" none))
      = some (.gpaError .database "database error"
          (some (.backend "connection reset" none))) :=
  ⟨convertGormError_classification.2.1 (.backend "wrap" (some .gormRecordNotFound)) rfl,
   convertGormError_classification.2.2.1 (.backend "wrap" (some .gormDuplicatedKey)) rfl rfl,
   convertGormError_classification.2.2.2 (.backend "connection reset" none) rfl rfl rfl⟩

/-- C8: a condition that is not a recognized BasicCondition variant is a
silent no-op for both WHERE and HAVING application — the query is
returned unchanged and no error is produced. -/
theorem applyCondition_complex_noop (db : GormDB) (tag : String) :
    applyCondition db (.complex tag) = db ∧ applyHaving db (.complex tag) = db :=
  ⟨rfl, rfl⟩

/-- C9: for every option sequence, Exists answers true exactly when Count
with the same options is positive, and Exists propagates Count's error
unchanged. -/
theorem existsOp_iff_count_pos (db0 : GormDB)
    (store : GormDB → Nat × Option GoError) (opts : List QueryOption) :
    ((existsOp db0 store opts).1 = true ↔ 0 < (countOp db0 store opts).1) ∧
    (existsOp db0 store opts).2 = (countOp db0 store opts).2 := by
  refine ⟨?_, rfl⟩
  simp [existsOp]

/-- C4: Create runs Validate then BeforeCreate before persisting; a
failure in either aborts before the persistence call and surfaces as a
Validation error wrapping the hook's error, while an AfterCreate failure
is swallowed and Create still reports success since persistence already
succeeded. -/
theorem createOp_hook_lifecycle :
    (∀ (entity : EntityHooks) (persist : Option GoError) (e : GoError),
       hookFails entity.validate = some e →
       createOp entity persist
         = (some (gpaNewErrorWithCause .validation "validation failed" e), false)) ∧
    (∀ (entity : EntityHooks) (persist : Option GoError) (e : GoError),
       hookFails entity.validate = none →
       hookFails entity.beforeCreate = some e →
       createOp entity persist
         = (some (gpaNewErrorWithCause .validation "before create hook failed" e), false)) ∧
    (∀ entity : EntityHooks,
       hookFails entity.validate = none →
       hookFails entity.beforeCreate = none →
       createOp entity none = (none, true)) := by
  refine ⟨?_, ?_, ?_⟩ <;> intros <;> simp_all [createOp]

/-- Closed instances of C4: a failing Validate hook, a failing
BeforeCreate hook, and a failing AfterCreate hook with a successful
persistence. -/
theorem createOp_hook_lifecycle_witness :
    createOp { validate := some (some (.backend "invalid" none)) } none
      = (some (gpaNewErrorWithCause .validation "validation failed"
          (.backend "invalid" none)), false) ∧
    createOp { beforeCreate := some (some (.backend "bc" none)) } none
      = (some (gpaNewErrorWithCause .validation "before create hook failed"
          (.backend "bc" none)), false) ∧
    createOp { afterCreate := some (some (.backend "ac" none)) } none = (none, true) :=
  ⟨createOp_hook_lifecycle.1 _ none _ rfl,
   createOp_hook_lifecycle.2.1 _ none _ rfl rfl,
   createOp_hook_lifecycle.2.2 _ rfl rfl⟩

/-- Unfolding equation for `chunkSizes` at zero rows. -/
theorem chunkSizes_zero (b : Nat) : chunkSizes 0 b = [] := by
  cases b <;> simp [chunkSizes]

/-- Unfolding equation for `chunkSizes` on positive rows and batch size. -/
theorem chunkSizes_succ (n b : Nat) :
    chunkSizes (n + 1) (b + 1) = min (n + 1) (b + 1) :: chunkSizes (n - b) (b + 1) := by
  simp [chunkSizes]

/-- The number of sub-batches of size 100 is the ceiling of n / 100. -/
theorem chunkSizes_length100 (n : Nat) : (chunkSizes n 100).length = (n + 99) / 100 := by
  induction n using Nat.strong_induction_on with
  | _ n ih =>
    match n with
    | 0 => simp [chunkSizes_zero]
    | m + 1 =>
      have h100 : (100 : Nat) = 99 + 1 := rfl
      rw [h100, chunkSizes_succ, ← h100]
      simp only [List.length_cons]
      rw [ih (m - 99) (by omega)]
      omega

/-- The sub-batches of size 100 cover all n rows. -/
theorem chunkSizes_sum100 (n : Nat) : (chunkSizes n 100).sum = n := by
  induction n using Nat.strong_induction_on with
  | _ n ih =>
    match n with
    | 0 => simp [chunkSizes_zero]
    | m + 1 =>
      have h100 : (100 : Nat) = 99 + 1 := rfl
      rw [h100, chunkSizes_succ, ← h100]
      simp only [List.sum_cons]
      rw [ih (m - 99) (by omega)]
      omega

/-- Every sub-batch holds at most 100 rows. -/
theorem chunkSizes_le100 (n : Nat) : ∀ c ∈ chunkSizes n 100, c ≤ 100 := by
  induction n using Nat.strong_induction_on with
  | _ n ih =>
    match n with
    | 0 => simp [chunkSizes_zero]
    | m + 1 =>
      have h100 : (100 : Nat) = 99 + 1 := rfl
      rw [h100, chunkSizes_succ, ← h100]
      intro c hc
      rcases List.mem_cons.mp hc with h | h
      · subst h; omega
      · exact ih (m - 99) (by omega) c h

/-- `validateAll` stops at the first failing Validate hook. -/
theorem validateAll_append_fail (pre post : List EntityHooks) (ent : EntityHooks)
    (e : GoError) (hpre : ∀ p ∈ pre, hookFails p.validate = none)
    (hent : hookFails ent.validate = some e) :
    validateAll (pre ++ ent :: post)
      = some (gpaNewErrorWithCause .validation "validation failed" e) := by
  induction pre with
  | nil => simp [validateAll, hent]
  | cons p rest ih =>
    have hp : hookFails p.validate = none := hpre p (by simp)
    simp only [List.cons_append, validateAll, hp]
    exact ih (fun q hq => hpre q (by simp [hq]))

/-- `validateAll` passes when every Validate hook passes. -/
theorem validateAll_none (l : List EntityHooks)
    (h : ∀ p ∈ l, hookFails p.validate = none) : validateAll l = none := by
  induction l with
  | nil => rfl
  | cons p rest ih =>
    have hp : hookFails p.validate = none := h p (by simp)
    simp only [validateAll, hp]
    exact ih (fun q hq => h q (by simp [hq]))

/-- `beforeCreateAll` stops at the first failing BeforeCreate hook. -/
theorem beforeCreateAll_append_fail (pre post : List EntityHooks) (ent : EntityHooks)
    (e : GoError) (hpre : ∀ p ∈ pre, hookFails p.beforeCreate = none)
    (hent : hookFails ent.beforeCreate = some e) :
    beforeCreateAll (pre ++ ent :: post)
      = some (gpaNewErrorWithCause .validation "before create hook failed" e) := by
  induction pre with
  | nil => simp [beforeCreateAll, hent]
  | cons p rest ih =>
    have hp : hookFails p.beforeCreate = none := hpre p (by simp)
    simp only [List.cons_append, beforeCreateAll, hp]
    exact ih (fun q hq => hpre q (by simp [hq]))

/-- `beforeCreateAll` passes when every BeforeCreate hook passes. -/
theorem beforeCreateAll_none (l : List EntityHooks)
    (h : ∀ p ∈ l, hookFails p.beforeCreate = none) : beforeCreateAll l = none := by
  induction l with
  | nil => rfl
  | cons p rest ih =>
    have hp : hookFails p.beforeCreate = none := h p (by simp)
    simp only [beforeCreateAll, hp]
    exact ih (fun q hq => h q (by simp [hq]))

/-- C5: CreateBatch validates every entity fail-fast on the first Validate
failure before any persistence, then runs BeforeCreate on every entity
with the same fail-fast still before persistence, then persists through
the fixed sub-batching of 100 rows per physical write — N entities give
exactly the ceiling of N/100 sub-batches, each of at most 100 rows,
covering all N rows — and AfterCreate failures never abort the
operation. -/
theorem createBatchOp_phases_and_batching :
    (∀ (pre post : List EntityHooks) (ent : EntityHooks) (persist : Option GoError)
       (e : GoError),
       (∀ p ∈ pre, hookFails p.validate = none) →
       hookFails ent.validate = some e →
       createBatchOp (pre ++ ent :: post) persist
         = (some (gpaNewErrorWithCause .validation "validation failed" e), false)) ∧
    (∀ (pre post : List EntityHooks) (ent : EntityHooks) (persist : Option GoError)
       (e : GoError),
       (∀ p ∈ pre ++ ent :: post, hookFails p.validate = none) →
       (∀ p ∈ pre, hookFails p.beforeCreate = none) →
       hookFails ent.beforeCreate = some e →
       createBatchOp (pre ++ ent :: post) persist
         = (some (gpaNewErrorWithCause .validation "before create hook failed" e), false)) ∧
    (∀ entities : List EntityHooks,
       (∀ p ∈ entities, hookFails p.validate = none) →
       (∀ p ∈ entities, hookFails p.beforeCreate = none) →
       createBatchOp entities none = (none, true)) ∧
    (∀ n : Nat, (chunkSizes n 100).length = (n + 99) / 100
       ∧ (chunkSizes n 100).sum = n ∧ ∀ c ∈ chunkSizes n 100, c ≤ 100) := by
  refine ⟨?_, ?_, ?_, ?_⟩
  · intro pre post ent persist e hpre hent
    simp [createBatchOp, validateAll_append_fail pre post ent e hpre hent]
  · intro pre post ent persist e hval hpre hent
    simp [createBatchOp, validateAll_none _ hval,
      beforeCreateAll_append_fail pre post ent e hpre hent]
  · intro entities hv hb
    simp [createBatchOp, validateAll_none _ hv, beforeCreateAll_none _ hb]
  · intro n
    exact ⟨chunkSizes_length100 n, chunkSizes_sum100 n, chunkSizes_le100 n⟩

/-- Closed instances of C5: fail-fast on a second entity's Validate and
BeforeCreate failures, success with a failing AfterCreate, and the two
batching boundary cases N=100 and N=101. -/
theorem createBatchOp_phases_and_batching_witness :
    createBatchOp [{}, { validate := some (some (.backend "bad" none)) }] none
      = (some (gpaNewErrorWithCause .validation "validation failed"
          (.backend "bad" none)), false) ∧
    createBatchOp [{}, { beforeCreate := some (some (.backend "bc" none)) }] none
      = (some (gpaNewErrorWithCause .validation "before create hook failed"
          (.backend "bc" none)), false) ∧
    createBatchOp [{ afterCreate := some (some (.backend "ac" none)) }] none
      = (none, true) ∧
    (chunkSizes 100 100).length = (100 + 99) / 100 ∧
    (chunkSizes 101 100).length = (101 + 99) / 100 := by
  refine ⟨?_, ?_, ?_, ?_, ?_⟩
  · exact createBatchOp_phases_and_batching.1 [{}] []
      { validate := some (some (.backend "bad" none)) } none (.backend "bad" none)
      (by intro p hp; simp at hp; subst hp; rfl) rfl
  · exact createBatchOp_phases_and_batching.2.1 [{}] []
      { beforeCreate := some (some (.backend "bc" none)) } none (.backend "bc" none)
      (by intro p hp; simp at hp; rcases hp with h | h <;> (subst h; rfl))
      (by intro p hp; simp at hp; subst hp; rfl) rfl
  · exact createBatchOp_phases_and_batching.2.2.1
      [{ afterCreate := some (some (.backend "ac" none)) }]
      (by intro p hp; simp at hp; subst hp; rfl)
      (by intro p hp; simp at hp; subst hp; rfl)
  · exact (createBatchOp_phases_and_batching.2.2.2 100).1
  · exact (createBatchOp_phases_and_batching.2.2.2 101).1

/-- C6: a targeted-by-primary-key mutation that affects zero rows and
reports no store error returns a NotFound error — UpdatePartial when zero
rows match the primary key, and Delete when the delete affects zero
rows. -/
theorem zero_rows_affected_not_found :
    (∀ res : StoreResult, res.error = none → res.rowsAffected = 0 →
       updatePartialOp res = some (.gpaError .notFound "entity not found" none)) ∧
    (∀ env : DeleteEnv, env.fetch = none → hookFails env.beforeDelete = none →
       env.deleteResult.error = none → env.deleteResult.rowsAffected = 0 →
       deleteOp env = some (.gpaError .notFound "entity not found" none)) := by
  constructor
  · intro res h1 h2
    simp [updatePartialOp, h1, h2]
  · intro env h1 h2 h3 h4
    simp [deleteOp, h1, h2, h3, h4]

/-- Closed instances of C6: the store answers both mutations with no
error and zero rows affected. -/
theorem zero_rows_affected_not_found_witness :
    updatePartialOp {} = some (.gpaError .notFound "entity not found" none) ∧
    deleteOp {} = some (.gpaError .notFound "entity not found" none) :=
  ⟨zero_rows_affected_not_found.1 {} rfl rfl,
   zero_rows_affected_not_found.2 {} rfl rfl rfl rfl⟩

/-- C7: Transaction invokes the caller's function on a repository bound to
the transactional handle (keeping the caller's provider), commits exactly
when the function returns no error, and on any error rolls back and
surfaces that error unchanged. -/
theorem transactionOp_commit_iff_no_error :
    (∀ (r : Repo) (txHandle : Nat) (fn : Repo → Option GoError),
       fn { db := txHandle, provider := r.provider } = none →
       transactionOp r txHandle fn = (none, .committed)) ∧
    (∀ (r : Repo) (txHandle : Nat) (fn : Repo → Option GoError) (e : GoError),
       fn { db := txHandle, provider := r.provider } = some e →
       transactionOp r txHandle fn = (some e, .rolledBack)) := by
  constructor
  · intro r tx fn h
    simp [transactionOp, gormTransaction, h]
  · intro r tx fn e h
    simp [transactionOp, gormTransaction, h]

/-- Closed instances of C7: a function that succeeds commits; a function
that deliberately raises an error rolls back and that same error is
surfaced. -/
theorem transactionOp_commit_iff_no_error_witness :
    transactionOp ⟨0, 1⟩ 2 (fun _ => none) = (none, .committed) ∧
    transactionOp ⟨0, 1⟩ 2 (fun _ => some (.backend "boom" none))
      = (some (.backend "boom" none), .rolledBack) :=
  ⟨transactionOp_commit_iff_no_error.1 ⟨0, 1⟩ 2 (fun _ => none) rfl,
   transactionOp_commit_iff_no_error.2 ⟨0, 1⟩ 2 (fun _ => some (.backend "boom" none))
     (.backend "boom" none) rfl⟩

/-- Written from the claim's words: the tail of a "_"-join, one "_"
separator before each element. -/
def tailJoin : List String → String
  | [] => ""
  | f :: fs => "_" ++ f ++ tailJoin fs

/-- Written from the claim's words: the field names joined by "_" in the
given order. -/
def joinUnderscore : List String → String
  | [] => ""
  | [f] => f
  | f :: rest => f ++ "_" ++ joinUnderscore rest

/-- The source's accumulator loop equals appending the "_"-join tail. -/
theorem foldl_underscore (rest : List String) : ∀ acc : String,
    rest.foldl (fun a f => a ++ "_" ++ f) acc = acc ++ tailJoin rest := by
  induction rest with
  | nil => intro acc; simp [tailJoin]
  | cons f fs ih =>
    intro acc
    simp only [List.foldl_cons, ih, tailJoin]
    simp [String.append_assoc]

/-- The "_"-join of a non-empty list is its head followed by the tail
join. -/
theorem joinUnderscore_cons (f : String) (fs : List String) :
    joinUnderscore (f :: fs) = f ++ tailJoin fs := by
  induction fs generalizing f with
  | nil => simp [joinUnderscore, tailJoin]
  | cons g gs ih =>
    simp [joinUnderscore, tailJoin, ih g, String.append_assoc]

/-- C10: CreateIndex reads the first field unconditionally, so on the
empty field list its name computation panics with an out-of-range access
instead of returning an error, and on a non-empty field list the
generated index name is exactly "idx_" ++ table ++ "_" ++ the field
names joined by "_" in the given order. -/
theorem createIndexName_first_field (table : String) (f : String) (fs : List String) :
    createIndexName table [] = .panics ∧
    createIndexName table (f :: fs)
      = .ok ("idx_" ++ table ++ "_" ++ joinUnderscore (f :: fs)) := by
  refine ⟨rfl, ?_⟩
  simp only [createIndexName, joinUnderscore_cons, foldl_underscore]
  simp [String.append_assoc]

end Gpagorm
